import Mathlib

/-!
Shallow embedding of the propmanager rent-management core (Express route
handlers over a Drizzle/Postgres store) and proofs about its five mutating
engines: invoice generation, payment application, auto-matching, historical
reconstruction, and owner-settlement calculation.

Modelling conventions:
* Monetary `decimal` columns are carried as exact rationals (`ℚ`); the code
  exchanges them as decimal strings and converts with `parseFloat`/`String`,
  which round-trips on the values this model ranges over.
* JavaScript falsy defaulting (`x || d`) on integers and strings is modelled
  by `jsOrZ`/`jsOrS`. The pay endpoint's `paidAmount` body field is modelled
  by `PayAmount`, which keeps the JSON carrier type because truthiness is
  tested on the raw value before `parseFloat`: a numeric `0`, a missing
  field and the empty string are falsy, while a non-empty numeral string
  such as `"0"` (the form the repository's client submits) is truthy.
* `new Date(y, m - 1, day)` comparisons are modelled by lexicographic order on
  `(year, month, day, time-of-day)`; both sides of every comparison use the
  same 1-based month convention, so the uniform `- 1` shift is dropped, and
  day values are assumed in calendar range (no JS date normalisation).
* The database's generated identity columns are modelled by `Store.nextId`.
* Audit-log writes are append-only and read by no claim, so they are omitted
  from the store.
-/

/-- Result of comparing a JS `Date` built from calendar components: a point in
time given as year, 1-based month, day, and time elapsed since midnight. -/
structure JsDate where
  year : ℤ
  month : ℤ
  day : ℤ
  frac : ℚ
deriving DecidableEq

/-- Chronological strict order on `JsDate`, i.e. JS `<` on `Date` values. -/
def JsDate.lt (a b : JsDate) : Prop :=
  a.year < b.year ∨ (a.year = b.year ∧ (a.month < b.month ∨ (a.month = b.month ∧
    (a.day < b.day ∨ (a.day = b.day ∧ a.frac < b.frac)))))

instance (a b : JsDate) : Decidable (a.lt b) := by
  unfold JsDate.lt
  infer_instance

/-- Row of the `units` table (fields the core reads). -/
structure Unit_ where
  id : ℤ
  propertyId : ℤ
  unitName : String
  monthlyRent : ℚ
deriving DecidableEq

/-- Row of the `tenants` table (fields the core reads). -/
structure Tenant where
  id : ℤ
  unitId : ℤ
  name : String
  rentDueDay : ℤ
  isActive : ℤ
deriving DecidableEq

/-- Row of the `rent_invoices` table. -/
structure RentInvoice where
  id : ℤ
  tenantId : ℤ
  unitId : ℤ
  month : ℤ
  year : ℤ
  amount : ℚ
  status : String
  paidAmount : Option ℚ
  paidDate : Option String
  paymentMethod : Option String
  receiptNumber : Option String
  isHistorical : ℤ
  notes : Option String
deriving DecidableEq

/-- Row of the `property_users` table (fields the settlement engine reads). -/
structure PropertyUser where
  id : ℤ
  userId : ℤ
  propertyId : ℤ
  role : String
  status : String
  ownershipPercent : Option ℚ
deriving DecidableEq

/-- Row of the `owner_settlements` table. -/
structure OwnerSettlement where
  id : ℤ
  propertyId : ℤ
  userId : ℤ
  month : ℤ
  year : ℤ
  totalRent : ℚ
  ownerShare : ℚ
  amountDistributed : ℚ
  balance : ℚ
deriving DecidableEq

/-- Row of the `payments` table (fields the auto-matcher reads and writes). -/
structure Payment where
  id : ℤ
  amount : ℚ
  date : String
  matchedInvoiceId : Option ℤ
  status : String
  tenantName : Option String
deriving DecidableEq

/-- The relational store behind `DatabaseStorage`, with one generated-identity
counter shared by all tables. -/
structure Store where
  units : List Unit_
  tenants : List Tenant
  invoices : List RentInvoice
  propertyUsers : List PropertyUser
  settlements : List OwnerSettlement
  payments : List Payment
  nextId : ℤ
deriving DecidableEq

/-- First element satisfying a decidable predicate (JS `Array.prototype.find`,
and the single-row `where` queries of the storage layer). -/
def findFirstP (p : α → Prop) [DecidablePred p] : List α → Option α
  | [] => none
  | x :: xs => if p x then some x else findFirstP p xs

/-- Elements satisfying a decidable predicate (JS `Array.prototype.filter`,
and the multi-row `where` queries of the storage layer). -/
def filterP (p : α → Prop) [DecidablePred p] : List α → List α
  | [] => []
  | x :: xs => if p x then x :: filterP p xs else filterP p xs

/-- Stable insertion of one element into a sorted list: the new element goes
before the first position where `le` accepts it, hence after equal keys. -/
def sortIns (le : α → α → Bool) (x : α) : List α → List α
  | [] => [x]
  | y :: ys => if le x y then x :: y :: ys else y :: sortIns le x ys

/-- Stable insertion sort, modelling a SQL `ORDER BY` over the stored rows. -/
def sortBy (le : α → α → Bool) : List α → List α
  | [] => []
  | y :: ys => sortIns le y (sortBy le ys)

/-- Order of `getRentInvoices`: `ORDER BY year DESC, month DESC`. -/
def invoiceDescLe (a b : RentInvoice) : Bool :=
  decide (b.year < a.year ∨ (a.year = b.year ∧ b.month ≤ a.month))

/-- The `paidAmount` field of the pay request's unvalidated JSON body. The
handler tests JS truthiness of the raw value (`paidAmount || invoice.amount`)
before parsing, so the carrier type matters: `num q` is a JSON number, falsy
exactly when `q = 0`; `str q` is a non-empty decimal numeral string — such as
`"0"` or `"500"`, the form the repository's client submits from its text
input — whose `parseFloat` is `q`, and it is always truthy; `missing` covers
an absent field and the empty string, both falsy. -/
inductive PayAmount where
  | missing
  | num (q : ℚ)
  | str (q : ℚ)
deriving DecidableEq

/-- `parseFloat(paidAmount || invoice.amount)`: the default substitutes only
when the raw JSON value is falsy, then the surviving value is parsed. -/
def effectivePaid (v : PayAmount) (d : ℚ) : ℚ :=
  match v with
  | .missing => d
  | .num q => if q = 0 then d else q
  | .str q => q

/-- JS `n || d` on an optional integer: `undefined` and `0` are falsy. -/
def jsOrZ (v : Option ℤ) (d : ℤ) : ℤ :=
  match v with
  | none => d
  | some n => if n = 0 then d else n

/-- JS `s || d` on an optional string: `undefined` and `""` are falsy. -/
def jsOrS (v : Option String) (d : String) : String :=
  match v with
  | none => d
  | some s => if s = "" then d else s

/-- JS truthiness of an optional string: present and non-empty. -/
def truthyS (v : Option String) : Prop := v ≠ none ∧ v ≠ some ""

instance (v : Option String) : Decidable (truthyS v) := by
  unfold truthyS
  infer_instance

/-- JS `Math.round`: round half toward positive infinity. -/
def jsRound (x : ℚ) : ℤ := ⌊x + 1/2⌋

/-- JS `String(n).padStart(2, "0")` for the integers the code feeds it. -/
def pad2 (n : ℤ) : String :=
  if 0 ≤ n ∧ n < 10 then "0" ++ toString n else toString n

/-- ISO `YYYY-MM-DD` date string of a `JsDate` (`toISOString().split("T")[0]`,
with the model's clock taken to be UTC). -/
def JsDate.isoDate (d : JsDate) : String :=
  toString d.year ++ "-" ++ pad2 d.month ++ "-" ++ pad2 d.day

/-- `DatabaseStorage.getUnit`. -/
def Store.getUnit (s : Store) (id : ℤ) : Option Unit_ :=
  findFirstP (fun u => u.id = id) s.units

/-- `DatabaseStorage.getUnits` (units of one property). -/
def Store.getUnits (s : Store) (propertyId : ℤ) : List Unit_ :=
  filterP (fun u => u.propertyId = propertyId) s.units

/-- `DatabaseStorage.getTenants`. -/
def Store.getTenants (s : Store) : List Tenant := s.tenants

/-- `DatabaseStorage.getTenant`. -/
def Store.getTenant (s : Store) (id : ℤ) : Option Tenant :=
  findFirstP (fun t => t.id = id) s.tenants

/-- `DatabaseStorage.getTenantsByUnit`. -/
def Store.getTenantsByUnit (s : Store) (unitId : ℤ) : List Tenant :=
  filterP (fun t => t.unitId = unitId) s.tenants

/-- `DatabaseStorage.getRentInvoice`. -/
def Store.getRentInvoice (s : Store) (id : ℤ) : Option RentInvoice :=
  findFirstP (fun i => i.id = id) s.invoices

/-- `DatabaseStorage.getRentInvoicesByMonth`. -/
def Store.getRentInvoicesByMonth (s : Store) (month year : ℤ) : List RentInvoice :=
  filterP (fun i => i.month = month ∧ i.year = year) s.invoices

/-- `DatabaseStorage.getRentInvoices`: all invoices, year desc, month desc. -/
def Store.getRentInvoices (s : Store) : List RentInvoice :=
  sortBy invoiceDescLe s.invoices

/-- `DatabaseStorage.getPropertyUsers`. -/
def Store.getPropertyUsers (s : Store) (propertyId : ℤ) : List PropertyUser :=
  filterP (fun o => o.propertyId = propertyId) s.propertyUsers

/-- `DatabaseStorage.createRentInvoice`: insert with a fresh generated id and
return the inserted row. -/
def Store.createRentInvoice (s : Store) (mk : ℤ → RentInvoice) : RentInvoice × Store :=
  let inv := mk s.nextId
  (inv, { s with invoices := s.invoices ++ [inv], nextId := s.nextId + 1 })

/-- `DatabaseStorage.updateRentInvoice`: set fields on the rows with this id
and return the updated first match. -/
def Store.updateRentInvoice (s : Store) (id : ℤ) (f : RentInvoice → RentInvoice) :
    Option RentInvoice × Store :=
  ((s.getRentInvoice id).map f,
   { s with invoices := s.invoices.map (fun i => if i.id = id then f i else i) })

/-- `DatabaseStorage.createOwnerSettlement`. -/
def Store.createOwnerSettlement (s : Store) (mk : ℤ → OwnerSettlement) :
    OwnerSettlement × Store :=
  let row := mk s.nextId
  (row, { s with settlements := s.settlements ++ [row], nextId := s.nextId + 1 })

/-- `DatabaseStorage.createPayment`. -/
def Store.createPayment (s : Store) (mk : ℤ → Payment) : Payment × Store :=
  let row := mk s.nextId
  (row, { s with payments := s.payments ++ [row], nextId := s.nextId + 1 })

/-- `DatabaseStorage.updatePayment`. -/
def Store.updatePayment (s : Store) (id : ℤ) (f : Payment → Payment) :
    Option Payment × Store :=
  ((findFirstP (fun p => p.id = id) s.payments).map f,
   { s with payments := s.payments.map (fun p => if p.id = id then f p else p) })

/-- Error responses the embedded endpoints can produce: a 400 for a missing or
invalid required field, a 404 for an absent record, and the two 400s of the
pay endpoint, which the spec groups as `InvalidAmount`. -/
inductive ReqError where
  | validation
  | notFound
  | invalidAmount
deriving DecidableEq

/-- Decidable equality of endpoint results, for evaluating concrete runs. -/
instance {ε α : Type} [DecidableEq ε] [DecidableEq α] : DecidableEq (Except ε α)
  | .error e, .error f =>
    if h : e = f then .isTrue (by rw [h])
    else .isFalse (by intro hh; cases hh; exact h rfl)
  | .error _, .ok _ => .isFalse (by intro hh; cases hh)
  | .ok _, .error _ => .isFalse (by intro hh; cases hh)
  | .ok a, .ok b =>
    if h : a = b then .isTrue (by rw [h])
    else .isFalse (by intro hh; cases hh; exact h rfl)

/-- `POST /api/invoices/:id/pay`: look the invoice up, default the paid amount
to the invoice total (`parseFloat(paidAmount || invoice.amount)`), reject
negative amounts and overpayment, derive the status, and persist the payment
fields. On an error response the store is returned unchanged. -/
def payInvoice (now : JsDate) (s : Store) (id : ℤ) (paidAmountParam : PayAmount)
    (paymentMethodParam : Option String) : Except ReqError RentInvoice × Store :=
  match s.getRentInvoice id with
  | none => (.error .notFound, s)
  | some invoice =>
    let paid := effectivePaid paidAmountParam invoice.amount
    let total := invoice.amount
    if paid < 0 then (.error .invalidAmount, s)
    else if total < paid then (.error .invalidAmount, s)
    else
      let status :=
        if total ≤ paid then
          let dueDay := jsOrZ ((s.getTenant invoice.tenantId).map Tenant.rentDueDay) 1
          let dueDate : JsDate := ⟨invoice.year, invoice.month, dueDay, 0⟩
          if dueDate.lt now then "late" else "paid"
        else "partial"
      let upd := s.updateRentInvoice invoice.id (fun i =>
        { i with status := status, paidAmount := some paid,
                 paidDate := some now.isoDate,
                 paymentMethod := some (jsOrS paymentMethodParam "cash") })
      match upd.1 with
      | some u => (.ok u, upd.2)
      | none => (.ok invoice, upd.2)

/-- Receipt number `INV-{year}{month:02}-{tenantId}` of a generated invoice. -/
def invReceipt (year month tenantId : ℤ) : String :=
  "INV-" ++ toString year ++ pad2 month ++ "-" ++ toString tenantId

/-- Loop body of `POST /api/invoices/generate`: walk the active tenants, skip
the ones already invoiced for the period or whose unit is absent, and create
one unpaid invoice for each of the rest, threading the store. -/
def genLoop (month year : ℤ) (existingTenantIds : List ℤ) :
    List Tenant → Store → List RentInvoice × Store
  | [], s => ([], s)
  | t :: ts, s =>
    if t.id ∈ existingTenantIds then genLoop month year existingTenantIds ts s
    else
      match s.getUnit t.unitId with
      | none => genLoop month year existingTenantIds ts s
      | some u =>
        let c := s.createRentInvoice (fun newId =>
          { id := newId, tenantId := t.id, unitId := t.unitId, month := month,
            year := year, amount := u.monthlyRent, status := "unpaid",
            paidAmount := some 0, paidDate := none, paymentMethod := none,
            receiptNumber := some (invReceipt year month t.id),
            isHistorical := 0, notes := none })
        let r := genLoop month year existingTenantIds ts c.2
        (c.1 :: r.1, r.2)

/-- `POST /api/invoices/generate`: require month and year (JS truthiness),
then run `genLoop` over the active tenants against the tenant ids already
invoiced for the period. -/
def generateInvoices (s : Store) (month year : ℤ) :
    Except ReqError (List RentInvoice × Store) :=
  if month = 0 ∨ year = 0 then .error .validation
  else
    let activeTenants := filterP (fun t => t.isActive = 1) s.getTenants
    let existingTenantIds := (s.getRentInvoicesByMonth month year).map RentInvoice.tenantId
    .ok (genLoop month year existingTenantIds activeTenants s)

/-- Backward walk of the reconstruction: `n` further years below `y`, where
`rent` is the rent applying in year `y` and each earlier year divides by
`1 + rate`; every recorded value is rounded with `Math.round`. The list is in
ascending year order, as built by `unshift`. -/
def reconAux (rate : ℚ) : ℕ → ℤ → ℚ → List (ℤ × ℤ)
  | 0, y, rent => [(y, jsRound rent)]
  | n + 1, y, rent => reconAux rate n (y - 1) (rent / (1 + rate)) ++ [(y, jsRound rent)]

/-- Yearly rent table of `POST /api/units/:unitId/reconstruct-history`: one
`(year, rounded rent)` entry per year from `sYear` to `currentYear`; empty
when the loop bound `currentYear ≥ sYear` fails at once. -/
def yearlyRents (rate : ℚ) (sYear currentYear : ℤ) (currentRent : ℚ) : List (ℤ × ℤ) :=
  if currentYear < sYear then []
  else reconAux rate (currentYear - sYear).toNat currentYear currentRent

/-- Integer range `[a, b]` in ascending order (`for (let m = a; m <= b; m++)`). -/
def monthRange (a b : ℤ) : List ℤ :=
  if a ≤ b then (List.range (b - a + 1).toNat).map (fun k => a + (k : ℤ)) else []

/-- Months the reconstruction visits, flattened in loop order: for each listed
year, the months from `startMonth` (earliest year only) or 1 up to the current
month (current year only) or 12, each paired with that year's rounded rent. -/
def reconMonths (sYear sMonth currentYear currentMonth : ℤ) (yrs : List (ℤ × ℤ)) :
    List (ℤ × ℤ × ℤ) :=
  (yrs.map (fun yr =>
    (monthRange (if yr.1 = sYear then sMonth else 1)
                (if yr.1 = currentYear then currentMonth else 12)).map
      (fun m => (yr.1, m, yr.2)))).join

/-- Receipt number `HIST-{year}{month:02}-{unitId}` of a reconstructed invoice. -/
def histReceipt (year month unitId : ℤ) : String :=
  "HIST-" ++ toString year ++ pad2 month ++ "-" ++ toString unitId

/-- Notes string attached to every reconstructed invoice. -/
def reconNotes (yearlyIncreasePercent currentRent : ℚ) : String :=
  "Reconstructed: " ++ toString yearlyIncreasePercent ++
    "% annual increase from PKR " ++ toString currentRent

/-- Tenant choice of the reconstruction:
`tenantsByUnit.find(t => t.isActive === 1) || tenantsByUnit[0]`. -/
def pickTenant (ts : List Tenant) : Option Tenant :=
  match findFirstP (fun t => t.isActive = 1) ts with
  | some t => some t
  | none => ts.head?

/-- Loop body of the reconstruction: for each `(year, month, rent)` visit, skip
when an invoice for this unit already exists in that period, pick the active
tenant of the unit (or its first tenant), silently skip when the unit has no
tenant at all, and otherwise create an unpaid historical invoice. -/
def reconLoop (unitId : ℤ) (yearlyIncreasePercent currentRent : ℚ) :
    List (ℤ × ℤ × ℤ) → Store → List RentInvoice × Store
  | [], s => ([], s)
  | (y, m, rent) :: rest, s =>
    let existing := s.getRentInvoicesByMonth m y
    match findFirstP (fun inv => inv.unitId = unitId) existing with
    | some _ => reconLoop unitId yearlyIncreasePercent currentRent rest s
    | none =>
      let tenantsByUnit := s.getTenantsByUnit unitId
      let activeTenant := pickTenant tenantsByUnit
      match activeTenant with
      | none => reconLoop unitId yearlyIncreasePercent currentRent rest s
      | some t =>
        let c := s.createRentInvoice (fun newId =>
          { id := newId, tenantId := t.id, unitId := unitId, month := m,
            year := y, amount := (rent : ℚ), status := "unpaid",
            paidAmount := some 0, paidDate := none, paymentMethod := none,
            receiptNumber := some (histReceipt y m unitId),
            isHistorical := 1,
            notes := some (reconNotes yearlyIncreasePercent currentRent) })
        let r := reconLoop unitId yearlyIncreasePercent currentRent rest c.2
        (c.1 :: r.1, r.2)

/-- `POST /api/units/:unitId/reconstruct-history`: require `currentRent` and
`yearlyIncreasePercent` (JS truthiness, so a numeric 0 is rejected as
missing), require the unit, default `startYear` to 2015 and `startMonth` to 1,
build the yearly rent table by reverse compounding, and create the missing
historical invoices. `nowYear`/`nowMonth` are the clock's calendar fields. -/
def reconstructHistory (nowYear nowMonth : ℤ) (s : Store) (unitId : ℤ)
    (currentRent yearlyIncreasePercent : ℚ) (startYear startMonth : Option ℤ) :
    Except ReqError (List (ℤ × ℤ) × List RentInvoice × Store) :=
  if currentRent = 0 ∨ yearlyIncreasePercent = 0 then .error .validation
  else
    match s.getUnit unitId with
    | none => .error .notFound
    | some _ =>
      let sYear := jsOrZ startYear 2015
      let sMonth := jsOrZ startMonth 1
      let rate := yearlyIncreasePercent / 100
      let yrs := yearlyRents rate sYear nowYear currentRent
      let months := reconMonths sYear sMonth nowYear nowMonth yrs
      let r := reconLoop unitId yearlyIncreasePercent currentRent months s
      .ok (yrs, r.1, r.2)

/-- Loop body of the settlement calculation: one inserted `OwnerSettlement`
row per qualifying owner, with `share = totalRent * ownershipPercent / 100`. -/
def calcLoop (propertyId month year : ℤ) (totalRent : ℚ) :
    List PropertyUser → Store → List OwnerSettlement × Store
  | [], s => ([], s)
  | o :: os, s =>
    let percent := o.ownershipPercent.getD 0
    let share := totalRent * percent / 100
    let c := s.createOwnerSettlement (fun newId =>
      { id := newId, propertyId := propertyId, userId := o.userId,
        month := month, year := year, totalRent := totalRent,
        ownerShare := share, amountDistributed := 0, balance := share })
    let r := calcLoop propertyId month year totalRent os c.2
    (c.1 :: r.1, r.2)

/-- `POST /api/properties/:propertyId/calculate-settlements`: sum the collected
`paidAmount` over the period's invoices that belong to the property's units
(`paidAmount || "0"` only defaults a missing value: a stored `"0"` is truthy),
then insert one settlement row per approved owner or co-owner. -/
def calculateSettlements (s : Store) (propertyId month year : ℤ) :
    List OwnerSettlement × Store :=
  let unitIds := (s.getUnits propertyId).map Unit_.id
  let allInvoices := s.getRentInvoicesByMonth month year
  let propertyInvoices := filterP (fun inv => inv.unitId ∈ unitIds) allInvoices
  let totalRent := (propertyInvoices.map (fun inv => inv.paidAmount.getD 0)).foldl (· + ·) 0
  let owners := s.getPropertyUsers propertyId
  let approvedOwners := filterP
    (fun o => o.status = "approved" ∧ (o.role = "property_owner" ∨ o.role = "co_owner"))
    owners
  calcLoop propertyId month year totalRent approvedOwners s

/-- Body of `POST /api/payments` after schema validation: the validated fields
the auto-matcher reads. -/
structure InsertPayment where
  amount : ℚ
  date : String
  tenantName : Option String
deriving DecidableEq

/-- Predicate of the auto-matcher's `find`: not already `paid`, and amount
within a strict 1-unit tolerance of the payment amount. -/
def matchPred (paymentAmount : ℚ) (inv : RentInvoice) : Prop :=
  inv.status ≠ "paid" ∧ |inv.amount - paymentAmount| < 1

instance (a : ℚ) (inv : RentInvoice) : Decidable (matchPred a inv) := by
  unfold matchPred
  infer_instance

/-- `POST /api/payments`: insert the payment (status `unmatched`), and when
`payment.amount && payment.tenantName` holds — the stored amount string of a
numeric value is always non-empty, so only the tenant name's truthiness can
fail — find the first invoice over `getRentInvoices` satisfying `matchPred`,
mark the payment matched and the invoice paid with the payment's amount and
date. The handler responds with the locally-updated payment object. -/
def recordPayment (s : Store) (data : InsertPayment) : Payment × Store :=
  let c := s.createPayment (fun newId =>
    { id := newId, amount := data.amount, date := data.date,
      matchedInvoiceId := none, status := "unmatched", tenantName := data.tenantName })
  let payment := c.1
  let s1 := c.2
  if truthyS payment.tenantName then
    match findFirstP (matchPred payment.amount) s1.getRentInvoices with
    | some inv =>
      let u1 := s1.updatePayment payment.id (fun p =>
        { p with matchedInvoiceId := some inv.id, status := "matched" })
      let u2 := u1.2.updateRentInvoice inv.id (fun i =>
        { i with status := "paid", paidAmount := some payment.amount,
                 paidDate := some payment.date })
      ({ payment with status := "matched", matchedInvoiceId := some inv.id }, u2.2)
    | none => (payment, s1)
  else (payment, s1)

/-- Concrete store for exercising `payInvoice` (status rule): one unit, one
tenant with due day 5, one unpaid September-2025 invoice of 1000. -/
def payDemoStore : Store :=
  { units := [{ id := 1, propertyId := 1, unitName := "A-1", monthlyRent := 1000 }],
    tenants := [{ id := 2, unitId := 1, name := "Asad", rentDueDay := 5, isActive := 1 }],
    invoices := [{ id := 10, tenantId := 2, unitId := 1, month := 9, year := 2025,
                   amount := 1000, status := "unpaid", paidAmount := some 0,
                   paidDate := none, paymentMethod := none,
                   receiptNumber := some "INV-202509-2", isHistorical := 0, notes := none }],
    propertyUsers := [], settlements := [], payments := [], nextId := 11 }

/-- Concrete store for exercising the `payInvoice` error contract. -/
def payBoundsStore : Store :=
  { units := [{ id := 1, propertyId := 1, unitName := "A-1", monthlyRent := 1000 }],
    tenants := [{ id := 2, unitId := 1, name := "Asad", rentDueDay := 5, isActive := 1 }],
    invoices := [{ id := 10, tenantId := 2, unitId := 1, month := 9, year := 2025,
                   amount := 1000, status := "unpaid", paidAmount := some 0,
                   paidDate := none, paymentMethod := none,
                   receiptNumber := some "INV-202509-2", isHistorical := 0, notes := none }],
    propertyUsers := [], settlements := [], payments := [], nextId := 11 }

/-- Concrete store for exercising the zero paid amount of `payInvoice` in
both its JSON carrier types. -/
def payZeroStore : Store :=
  { units := [{ id := 1, propertyId := 1, unitName := "A-1", monthlyRent := 1000 }],
    tenants := [{ id := 2, unitId := 1, name := "Asad", rentDueDay := 5, isActive := 1 }],
    invoices := [{ id := 10, tenantId := 2, unitId := 1, month := 9, year := 2025,
                   amount := 1000, status := "unpaid", paidAmount := some 0,
                   paidDate := none, paymentMethod := none,
                   receiptNumber := some "INV-202509-2", isHistorical := 0, notes := none }],
    propertyUsers := [], settlements := [], payments := [], nextId := 11 }

/-- Concrete store for exercising invoice generation: one active tenant with a
unit, no invoices yet. -/
def genDemoStore : Store :=
  { units := [{ id := 1, propertyId := 1, unitName := "A-1", monthlyRent := 25000 }],
    tenants := [{ id := 2, unitId := 1, name := "Asad", rentDueDay := 5, isActive := 1 }],
    invoices := [], propertyUsers := [], settlements := [], payments := [], nextId := 3 }

/-- Concrete store for exercising the reconstruction run-twice property. -/
def reconDemoStore : Store :=
  { units := [{ id := 1, propertyId := 1, unitName := "A-1", monthlyRent := 1000 }],
    tenants := [{ id := 2, unitId := 1, name := "Asad", rentDueDay := 5, isActive := 1 }],
    invoices := [], propertyUsers := [], settlements := [], payments := [], nextId := 3 }

/-- Invoice the reconstruction demo run creates for January 2025. -/
def reconDemoInvoice : RentInvoice :=
  ⟨3, 2, 1, 1, 2025, 1000, "unpaid", some 0, none, none,
   some (histReceipt 2025 1 1), 1, some (reconNotes 100 1000)⟩

/-- `reconDemoStore` after one reconstruction run over January 2025 alone. -/
def reconDemoAfter : Store :=
  { reconDemoStore with invoices := [reconDemoInvoice], nextId := 4 }

/-- Concrete store refuting the reconstruction claim at a negative
`currentRent`: only the unit is needed, the month loop creates nothing. -/
def reconNegStore : Store :=
  { units := [{ id := 1, propertyId := 1, unitName := "A-1", monthlyRent := 1000 }],
    tenants := [], invoices := [], propertyUsers := [], settlements := [], payments := [],
    nextId := 2 }

/-- Concrete store for the settlement share computation: one property with two
units whose September-2025 invoices collected 100000 in total, owned 60/40 by
two approved users. -/
def settleDemoStore : Store :=
  { units := [{ id := 1, propertyId := 1, unitName := "A-1", monthlyRent := 60000 },
              { id := 2, propertyId := 1, unitName := "A-2", monthlyRent := 40000 }],
    tenants := [],
    invoices := [{ id := 20, tenantId := 5, unitId := 1, month := 9, year := 2025,
                   amount := 60000, status := "paid", paidAmount := some 60000,
                   paidDate := some "2025-09-03", paymentMethod := some "cash",
                   receiptNumber := some "INV-202509-5", isHistorical := 0, notes := none },
                 { id := 21, tenantId := 6, unitId := 2, month := 9, year := 2025,
                   amount := 40000, status := "paid", paidAmount := some 40000,
                   paidDate := some "2025-09-04", paymentMethod := some "cash",
                   receiptNumber := some "INV-202509-6", isHistorical := 0, notes := none }],
    propertyUsers := [{ id := 30, userId := 10, propertyId := 1, role := "property_owner",
                        status := "approved", ownershipPercent := some 60 },
                      { id := 31, userId := 11, propertyId := 1, role := "co_owner",
                        status := "approved", ownershipPercent := some 40 }],
    settlements := [], payments := [], nextId := 32 }

/-- Concrete store for exercising the auto-matcher: one unpaid invoice. -/
def autoMatchStore : Store :=
  { units := [], tenants := [],
    invoices := [{ id := 7, tenantId := 2, unitId := 1, month := 9, year := 2025,
                   amount := 80000, status := "unpaid", paidAmount := some 0,
                   paidDate := none, paymentMethod := none,
                   receiptNumber := some "INV-202509-2", isHistorical := 0, notes := none }],
    propertyUsers := [], settlements := [], payments := [], nextId := 40 }

/-- Payment request exercising the auto-matcher on `autoMatchStore`. -/
def autoMatchData : InsertPayment :=
  { amount := 80000, date := "2025-10-01", tenantName := some "Asad" }

/-- Concrete store containing a fully paid invoice whose status is `late`. -/
def lateRematchStore : Store :=
  { units := [], tenants := [],
    invoices := [{ id := 7, tenantId := 2, unitId := 1, month := 9, year := 2025,
                   amount := 80000, status := "late", paidAmount := some 80000,
                   paidDate := some "2025-09-20", paymentMethod := some "cash",
                   receiptNumber := some "INV-202509-2", isHistorical := 0, notes := none }],
    propertyUsers := [], settlements := [], payments := [], nextId := 40 }

/-- New bank payment whose amount is within 1 unit of the late invoice. -/
def lateRematchData : InsertPayment :=
  { amount := 80000, date := "2025-10-01", tenantName := some "Bilal" }

theorem mem_filterP {p : α → Prop} [DecidablePred p] {l : List α} {a : α} :
    a ∈ filterP p l ↔ a ∈ l ∧ p a := by
  induction l with
  | nil => simp [filterP]
  | cons x xs ih =>
    by_cases hx : p x
    · simp only [filterP, if_pos hx, List.mem_cons, ih]
      constructor
      · rintro (rfl | ⟨h1, h2⟩)
        · exact ⟨Or.inl rfl, hx⟩
        · exact ⟨Or.inr h1, h2⟩
      · rintro ⟨rfl | h1, h2⟩
        · exact Or.inl rfl
        · exact Or.inr ⟨h1, h2⟩
    · simp only [filterP, if_neg hx, List.mem_cons, ih]
      constructor
      · rintro ⟨h1, h2⟩
        exact ⟨Or.inr h1, h2⟩
      · rintro ⟨rfl | h1, h2⟩
        · exact absurd h2 hx
        · exact ⟨h1, h2⟩

theorem filterP_append {p : α → Prop} [DecidablePred p] (l₁ l₂ : List α) :
    filterP p (l₁ ++ l₂) = filterP p l₁ ++ filterP p l₂ := by
  induction l₁ with
  | nil => simp [filterP]
  | cons x xs ih =>
    by_cases hx : p x <;> simp [filterP, hx, ih]

theorem filterP_congr {p q : α → Prop} [DecidablePred p] [DecidablePred q]
    (l : List α) (h : ∀ a ∈ l, p a ↔ q a) : filterP p l = filterP q l := by
  induction l with
  | nil => rfl
  | cons x xs ih =>
    have hx := h x (List.mem_cons_self x xs)
    by_cases hp : p x
    · rw [filterP, filterP, if_pos hp, if_pos (hx.mp hp),
        ih (fun a ha => h a (List.mem_cons_of_mem x ha))]
    · rw [filterP, filterP, if_neg hp, if_neg (fun hq => hp (hx.mpr hq)),
        ih (fun a ha => h a (List.mem_cons_of_mem x ha))]

theorem filterP_filterP {p q : α → Prop} [DecidablePred p] [DecidablePred q]
    (l : List α) : filterP p (filterP q l) = filterP (fun a => q a ∧ p a) l := by
  induction l with
  | nil => rfl
  | cons x xs ih =>
    by_cases hq : q x
    · by_cases hp : p x
      · simp [filterP, hq, hp, ih]
      · simp [filterP, hq, hp, ih]
    · have : ¬(q x ∧ p x) := fun h => hq h.1
      simp [filterP, hq, this, ih]

theorem filterP_eq_self {p : α → Prop} [DecidablePred p] {l : List α}
    (h : ∀ a ∈ l, p a) : filterP p l = l := by
  induction l with
  | nil => rfl
  | cons x xs ih =>
    rw [filterP, if_pos (h x (List.mem_cons_self x xs)),
      ih (fun a ha => h a (List.mem_cons_of_mem x ha))]

theorem findFirstP_some {p : α → Prop} [DecidablePred p] {l : List α} {a : α}
    (h : findFirstP p l = some a) : a ∈ l ∧ p a := by
  induction l with
  | nil => simp [findFirstP] at h
  | cons x xs ih =>
    by_cases hx : p x
    · rw [findFirstP, if_pos hx, Option.some.injEq] at h
      exact ⟨by simp [← h], h ▸ hx⟩
    · rw [findFirstP, if_neg hx] at h
      obtain ⟨h1, h2⟩ := ih h
      exact ⟨List.mem_cons_of_mem x h1, h2⟩

theorem findFirstP_ne_none {p : α → Prop} [DecidablePred p] {l : List α} {a : α}
    (hmem : a ∈ l) (hp : p a) : findFirstP p l ≠ none := by
  induction l with
  | nil => simp at hmem
  | cons x xs ih =>
    rcases List.mem_cons.mp hmem with rfl | hmem'
    · rw [findFirstP, if_pos hp]
      exact Option.some_ne_none _
    · by_cases hx : p x
      · rw [findFirstP, if_pos hx]
        exact Option.some_ne_none _
      · rw [findFirstP, if_neg hx]
        exact ih hmem'

theorem map_ite_update_eq_self (l : List α) (key : α → ℤ) (id : ℤ)
    (f : α → α) (h : ∀ a ∈ l, key a ≠ id) :
    l.map (fun a => if key a = id then f a else a) = l := by
  induction l with
  | nil => rfl
  | cons x xs ih =>
    rw [List.map_cons, if_neg (h x (List.mem_cons_self x xs)),
      ih (fun a ha => h a (List.mem_cons_of_mem x ha))]

theorem updateRentInvoice_fst {s : Store} {id : ℤ} {inv : RentInvoice}
    (f : RentInvoice → RentInvoice) (h : s.getRentInvoice id = some inv) :
    (s.updateRentInvoice id f).1 = some (f inv) := by
  rw [Store.updateRentInvoice, h, Option.map_some']

/-- C1: for every existing invoice and every effective paid amount `p` in
`[0, invoice.amount]` (the defaulted `parseFloat(paidAmount || amount)`),
`payInvoice` succeeds and records the status by the spec's rule: with
`paid >= amount`, it is `late` when the clock is past the due date built from
the invoice's year and month and the tenant's due day (defaulted to 1 when
the tenant is missing), `paid` otherwise; with `paid < amount` it is
`partial` regardless of the date. -/
theorem payInvoice_status_rule (now : JsDate) (s : Store) (id : ℤ)
    (paidAmountParam : PayAmount) (paymentMethodParam : Option String)
    (inv : RentInvoice) (p : ℚ)
    (hfind : s.getRentInvoice id = some inv)
    (hp : effectivePaid paidAmountParam inv.amount = p)
    (h0 : 0 ≤ p) (hle : p ≤ inv.amount) :
    ∃ out s', payInvoice now s id paidAmountParam paymentMethodParam = (.ok out, s') ∧
      out.paidAmount = some p ∧
      out.status =
        (if inv.amount ≤ p then
          (if (JsDate.mk inv.year inv.month
                (jsOrZ ((s.getTenant inv.tenantId).map Tenant.rentDueDay) 1) 0).lt now
           then "late" else "paid")
         else "partial") := by
  have hid : inv.id = id := (findFirstP_some hfind).2
  have h2 : s.getRentInvoice inv.id = some inv := by rw [hid]; exact hfind
  unfold payInvoice
  rw [hfind]
  simp only [hp]
  rw [if_neg (not_lt.mpr h0), if_neg (not_lt.mpr hle),
    updateRentInvoice_fst _ h2]
  exact ⟨_, _, rfl, rfl, rfl⟩

theorem effectivePaid_missing {d : ℚ} : effectivePaid .missing d = d := rfl

theorem effectivePaid_num_zero {d : ℚ} : effectivePaid (.num 0) d = d := by
  rw [effectivePaid, if_pos rfl]

theorem effectivePaid_num_of_ne {q d : ℚ} (h : q ≠ 0) :
    effectivePaid (.num q) d = q := by
  rw [effectivePaid, if_neg h]

theorem effectivePaid_str {q d : ℚ} : effectivePaid (.str q) d = q := rfl

theorem payInvoice_status_rule_witness :
    ∃ out s', payInvoice ⟨2025, 9, 3, 0⟩ payDemoStore 10 (.num 1000) none = (.ok out, s') ∧
      out.paidAmount = some 1000 ∧ out.status = "paid" := by
  obtain ⟨out, s', h1, h2, h3⟩ := payInvoice_status_rule ⟨2025, 9, 3, 0⟩ payDemoStore 10
    (.num 1000) none
    ⟨10, 2, 1, 9, 2025, 1000, "unpaid", some 0, none, none, some "INV-202509-2", 0, none⟩
    1000 (by decide) (by decide) (by decide) (by decide)
  refine ⟨out, s', h1, h2, ?_⟩
  rw [h3]
  decide

/-- C2: `payInvoice` responds `NotFound` when the invoice id is absent,
`InvalidAmount` when the supplied paid amount is negative or exceeds the
invoice amount — the store coming back unchanged in both failure cases — and
succeeds for every supplied paid amount in `[0, amount]`, whether the body
carries it as a JSON number or as a numeral string. -/
theorem payInvoice_error_contract (now : JsDate) (s : Store) (id : ℤ)
    (paymentMethodParam : Option String) :
    (s.getRentInvoice id = none →
      ∀ paidAmountParam, payInvoice now s id paidAmountParam paymentMethodParam =
        (.error .notFound, s)) ∧
    (∀ inv p, s.getRentInvoice id = some inv → (p < 0 ∨ inv.amount < p) →
      payInvoice now s id (.num p) paymentMethodParam = (.error .invalidAmount, s) ∧
      payInvoice now s id (.str p) paymentMethodParam = (.error .invalidAmount, s)) ∧
    (∀ inv p, s.getRentInvoice id = some inv → 0 ≤ p → p ≤ inv.amount →
      (∃ out s', payInvoice now s id (.num p) paymentMethodParam = (.ok out, s')) ∧
      (∃ out s', payInvoice now s id (.str p) paymentMethodParam = (.ok out, s'))) := by
  refine ⟨?_, ?_, ?_⟩
  · intro h paidAmountParam
    unfold payInvoice
    rw [h]
  · intro inv p hfind hbad
    constructor
    · unfold payInvoice
      rw [hfind]
      by_cases hp0 : p = 0
      · subst hp0
        have hneg : inv.amount < 0 := by
          rcases hbad with h | h
          · exact absurd h (lt_irrefl 0)
          · exact h
        simp only [effectivePaid_num_zero]
        rw [if_pos hneg]
      · simp only [effectivePaid_num_of_ne hp0]
        by_cases hneg : p < 0
        · rw [if_pos hneg]
        · rw [if_neg hneg, if_pos (hbad.resolve_left hneg)]
    · unfold payInvoice
      rw [hfind]
      simp only [effectivePaid_str]
      by_cases hneg : p < 0
      · rw [if_pos hneg]
      · rw [if_neg hneg, if_pos (hbad.resolve_left hneg)]
  · intro inv p hfind h0 hle
    have h2 : s.getRentInvoice inv.id = some inv := by
      rw [(findFirstP_some hfind).2]; exact hfind
    constructor
    · unfold payInvoice
      rw [hfind]
      by_cases hp0 : p = 0
      · subst hp0
        simp only [effectivePaid_num_zero]
        rw [if_neg (not_lt.mpr hle), if_neg (lt_irrefl _), updateRentInvoice_fst _ h2]
        exact ⟨_, _, rfl⟩
      · simp only [effectivePaid_num_of_ne hp0]
        rw [if_neg (not_lt.mpr h0), if_neg (not_lt.mpr hle), updateRentInvoice_fst _ h2]
        exact ⟨_, _, rfl⟩
    · unfold payInvoice
      rw [hfind]
      simp only [effectivePaid_str]
      rw [if_neg (not_lt.mpr h0), if_neg (not_lt.mpr hle), updateRentInvoice_fst _ h2]
      exact ⟨_, _, rfl⟩

theorem payInvoice_error_contract_witness :
    payInvoice ⟨2025, 9, 3, 0⟩ payBoundsStore 99 .missing none =
      (.error .notFound, payBoundsStore) ∧
    (payInvoice ⟨2025, 9, 3, 0⟩ payBoundsStore 10 (.num (-1)) none =
      (.error .invalidAmount, payBoundsStore) ∧
     payInvoice ⟨2025, 9, 3, 0⟩ payBoundsStore 10 (.str (-1)) none =
      (.error .invalidAmount, payBoundsStore)) ∧
    (payInvoice ⟨2025, 9, 3, 0⟩ payBoundsStore 10 (.num 1001) none =
      (.error .invalidAmount, payBoundsStore) ∧
     payInvoice ⟨2025, 9, 3, 0⟩ payBoundsStore 10 (.str 1001) none =
      (.error .invalidAmount, payBoundsStore)) ∧
    ((∃ out s', payInvoice ⟨2025, 9, 3, 0⟩ payBoundsStore 10 (.num 1000) none =
       (.ok out, s')) ∧
     (∃ out s', payInvoice ⟨2025, 9, 3, 0⟩ payBoundsStore 10 (.str 1000) none =
       (.ok out, s'))) := by
  refine ⟨(payInvoice_error_contract ⟨2025, 9, 3, 0⟩ payBoundsStore 99 none).1
      (by decide) .missing, ?_, ?_, ?_⟩
  · exact (payInvoice_error_contract ⟨2025, 9, 3, 0⟩ payBoundsStore 10 none).2.1
      ⟨10, 2, 1, 9, 2025, 1000, "unpaid", some 0, none, none, some "INV-202509-2", 0, none⟩
      (-1) (by decide) (Or.inl (by decide))
  · exact (payInvoice_error_contract ⟨2025, 9, 3, 0⟩ payBoundsStore 10 none).2.1
      ⟨10, 2, 1, 9, 2025, 1000, "unpaid", some 0, none, none, some "INV-202509-2", 0, none⟩
      1001 (by decide) (Or.inr (by decide))
  · exact (payInvoice_error_contract ⟨2025, 9, 3, 0⟩ payBoundsStore 10 none).2.2
      ⟨10, 2, 1, 9, 2025, 1000, "unpaid", some 0, none, none, some "INV-202509-2", 0, none⟩
      1000 (by decide) (by decide) (by decide)

/-- Counterexample to C9 as stated: a zero paid amount CAN record a
zero-amount partial payment. The request body is unvalidated JSON and the
repository's client submits `paidAmount` as the raw text-input string, so a
zero arrives as the non-empty string `"0"`: that value is truthy, bypasses
the `paidAmount || invoice.amount` default, parses to 0, passes both bound
checks, and the invoice is recorded with status `partial` and a paid amount
of 0. -/
theorem payInvoice_zero_string_counterexample :
    payInvoice ⟨2025, 9, 3, 0⟩ payZeroStore 10 (.str 0) none =
      (.ok ⟨10, 2, 1, 9, 2025, 1000, "partial", some 0, some "2025-09-03",
        some "cash", some "INV-202509-2", 0, none⟩,
       ⟨[⟨1, 1, "A-1", 1000⟩], [⟨2, 1, "Asad", 5, 1⟩],
        [⟨10, 2, 1, 9, 2025, 1000, "partial", some 0, some "2025-09-03",
          some "cash", some "INV-202509-2", 0, none⟩], [], [], [], 11⟩) := by
  decide

/-- C9 (amended): the falsy zero forms of `paidAmount` — a JSON number 0, an
absent field, or an empty string — take the `paidAmount || invoice.amount`
default, so the call behaves exactly like omitting the parameter and records
the full invoice amount with status `paid` or `late`; but the numeral-string
form `"0"`, which the repository's client actually submits, is truthy,
bypasses the default, and records a zero-amount `partial` payment. -/
theorem payInvoice_zero_amount_forms (now : JsDate) (s : Store) (id : ℤ)
    (paymentMethodParam : Option String) (inv : RentInvoice)
    (hfind : s.getRentInvoice id = some inv) (hamt : 0 ≤ inv.amount) :
    payInvoice now s id (.num 0) paymentMethodParam =
      payInvoice now s id .missing paymentMethodParam ∧
    (∃ out s', payInvoice now s id (.num 0) paymentMethodParam = (.ok out, s') ∧
      out.paidAmount = some inv.amount ∧
      (out.status = "paid" ∨ out.status = "late")) ∧
    (0 < inv.amount →
      ∃ out s', payInvoice now s id (.str 0) paymentMethodParam = (.ok out, s') ∧
        out.paidAmount = some 0 ∧ out.status = "partial") := by
  have h2 : s.getRentInvoice inv.id = some inv := by
    rw [(findFirstP_some hfind).2]; exact hfind
  refine ⟨?_, ?_, ?_⟩
  · unfold payInvoice
    rw [hfind]
    simp only [effectivePaid_num_zero, effectivePaid_missing]
  · unfold payInvoice
    rw [hfind]
    simp only [effectivePaid_num_zero]
    rw [if_neg (not_lt.mpr hamt), if_neg (lt_irrefl _),
      if_pos (le_refl _), updateRentInvoice_fst _ h2]
    refine ⟨_, _, rfl, rfl, ?_⟩
    by_cases hlt : (JsDate.mk inv.year inv.month
        (jsOrZ ((s.getTenant inv.tenantId).map Tenant.rentDueDay) 1) 0).lt now
    · exact Or.inr (by rw [if_pos hlt])
    · exact Or.inl (by rw [if_neg hlt])
  · intro hpos
    unfold payInvoice
    rw [hfind]
    simp only [effectivePaid_str]
    rw [if_neg (lt_irrefl 0), if_neg (not_lt.mpr hamt),
      if_neg (not_le.mpr hpos), updateRentInvoice_fst _ h2]
    exact ⟨_, _, rfl, rfl, rfl⟩

theorem payInvoice_zero_amount_forms_witness :
    payInvoice ⟨2025, 9, 3, 0⟩ payZeroStore 10 (.num 0) none =
      payInvoice ⟨2025, 9, 3, 0⟩ payZeroStore 10 .missing none ∧
    (∃ out s', payInvoice ⟨2025, 9, 3, 0⟩ payZeroStore 10 (.num 0) none =
      (.ok out, s') ∧ out.paidAmount = some 1000 ∧
      (out.status = "paid" ∨ out.status = "late")) ∧
    ((0 : ℚ) < 1000 →
      ∃ out s', payInvoice ⟨2025, 9, 3, 0⟩ payZeroStore 10 (.str 0) none =
        (.ok out, s') ∧ out.paidAmount = some 0 ∧ out.status = "partial") :=
  payInvoice_zero_amount_forms ⟨2025, 9, 3, 0⟩ payZeroStore 10 none
    ⟨10, 2, 1, 9, 2025, 1000, "unpaid", some 0, none, none, some "INV-202509-2", 0, none⟩
    (by decide) (by decide)

/-- C5: with a non-empty amount (automatic for a stored numeric value) and a
non-empty tenant name, recording a payment auto-matches against the first
invoice — in the store's year-descending, month-descending iteration order —
whose status is not `paid` and whose amount is within a strict 1-unit
tolerance of the payment amount, ignoring the tenant name entirely; on a
match the payment is marked `matched` with that invoice's id and the invoice
is re-marked `paid` with the payment's amount and date; with no invoice in
tolerance the payment stays `unmatched` and no invoice changes. -/
theorem recordPayment_automatch (s : Store) (data : InsertPayment)
    (ht : truthyS data.tenantName)
    (hfresh : ∀ q ∈ s.payments, q.id ≠ s.nextId) :
    let payment0 : Payment :=
      { id := s.nextId, amount := data.amount, date := data.date,
        matchedInvoiceId := none, status := "unmatched", tenantName := data.tenantName }
    match findFirstP (matchPred data.amount) (sortBy invoiceDescLe s.invoices) with
    | some inv =>
        (recordPayment s data).1 =
          { payment0 with status := "matched", matchedInvoiceId := some inv.id } ∧
        (recordPayment s data).2.invoices = s.invoices.map (fun i =>
          if i.id = inv.id then
            { i with status := "paid", paidAmount := some data.amount,
                     paidDate := some data.date }
          else i) ∧
        (recordPayment s data).2.payments = s.payments ++
          [{ payment0 with status := "matched", matchedInvoiceId := some inv.id }]
    | none =>
        (recordPayment s data).1 = payment0 ∧
        (recordPayment s data).2.invoices = s.invoices ∧
        (recordPayment s data).2.payments = s.payments ++ [payment0] := by
  intro payment0
  unfold recordPayment
  simp only [Store.createPayment]
  rw [if_pos ht]
  cases hfound : findFirstP (matchPred data.amount)
      (sortBy invoiceDescLe s.invoices) with
  | none =>
    simp only [Store.getRentInvoices]
    rw [hfound]
    exact ⟨rfl, rfl, rfl⟩
  | some inv =>
    simp only [Store.getRentInvoices]
    rw [hfound]
    refine ⟨rfl, rfl, ?_⟩
    simp only [Store.updatePayment, Store.updateRentInvoice]
    rw [List.map_append,
      map_ite_update_eq_self s.payments Payment.id s.nextId _ hfresh]
    simp

theorem recordPayment_automatch_witness :
    let payment0 : Payment :=
      { id := autoMatchStore.nextId, amount := autoMatchData.amount,
        date := autoMatchData.date, matchedInvoiceId := none,
        status := "unmatched", tenantName := autoMatchData.tenantName }
    match findFirstP (matchPred autoMatchData.amount)
        (sortBy invoiceDescLe autoMatchStore.invoices) with
    | some inv =>
        (recordPayment autoMatchStore autoMatchData).1 =
          { payment0 with status := "matched", matchedInvoiceId := some inv.id } ∧
        (recordPayment autoMatchStore autoMatchData).2.invoices =
          autoMatchStore.invoices.map (fun i =>
            if i.id = inv.id then
              { i with status := "paid", paidAmount := some autoMatchData.amount,
                       paidDate := some autoMatchData.date }
            else i) ∧
        (recordPayment autoMatchStore autoMatchData).2.payments =
          autoMatchStore.payments ++
            [{ payment0 with status := "matched", matchedInvoiceId := some inv.id }]
    | none =>
        (recordPayment autoMatchStore autoMatchData).1 = payment0 ∧
        (recordPayment autoMatchStore autoMatchData).2.invoices =
          autoMatchStore.invoices ∧
        (recordPayment autoMatchStore autoMatchData).2.payments =
          autoMatchStore.payments ++ [payment0] :=
  recordPayment_automatch autoMatchStore autoMatchData (by decide) (by decide)

/-- C10: the auto-matcher's candidate filter only excludes status `paid`, so a
fully paid invoice left in status `late` is still a candidate: in this store
the late invoice (already collected in full on 2025-09-20) is re-matched by a
new payment of the same amount, re-marked `paid`, and its paid amount and
paid date are overwritten with the new payment's values. -/
theorem automatch_rematches_late_invoice :
    lateRematchStore.invoices.map
        (fun i => (i.id, i.status, i.paidAmount, i.paidDate)) =
      [(7, "late", some (80000 : ℚ), some "2025-09-20")] ∧
    (recordPayment lateRematchStore lateRematchData).1.status = "matched" ∧
    (recordPayment lateRematchStore lateRematchData).1.matchedInvoiceId = some 7 ∧
    (recordPayment lateRematchStore lateRematchData).2.invoices.map
        (fun i => (i.id, i.status, i.paidAmount, i.paidDate)) =
      [(7, "paid", some (80000 : ℚ), some "2025-10-01")] := by
  have key : findFirstP (matchPred lateRematchData.amount)
      (sortBy invoiceDescLe lateRematchStore.invoices) =
      some ⟨7, 2, 1, 9, 2025, 80000, "late", some 80000, some "2025-09-20",
            some "cash", some "INV-202509-2", 0, none⟩ := by
    norm_num [findFirstP, sortBy, sortIns, matchPred, lateRematchStore,
      lateRematchData, abs_lt]
    all_goals decide
  have main : recordPayment lateRematchStore lateRematchData =
      (⟨40, 80000, "2025-10-01", some 7, "matched", some "Bilal"⟩,
       { units := [], tenants := [],
         invoices := [⟨7, 2, 1, 9, 2025, 80000, "paid", some 80000,
           some "2025-10-01", some "cash", some "INV-202509-2", 0, none⟩],
         propertyUsers := [], settlements := [],
         payments := [⟨40, 80000, "2025-10-01", some 7, "matched", some "Bilal"⟩],
         nextId := 41 }) := by
    unfold recordPayment
    simp only [Store.createPayment, Store.getRentInvoices]
    rw [if_pos (by decide : truthyS lateRematchData.tenantName), key]
    simp only [Store.updatePayment, Store.updateRentInvoice]
    decide
  refine ⟨by decide, ?_, ?_, ?_⟩ <;> rw [main] <;> decide


theorem calcLoop_store (propertyId month year : ℤ) (totalRent : ℚ) :
    ∀ (os : List PropertyUser) (s : Store),
    (calcLoop propertyId month year totalRent os s).2.units = s.units ∧
    (calcLoop propertyId month year totalRent os s).2.tenants = s.tenants ∧
    (calcLoop propertyId month year totalRent os s).2.invoices = s.invoices ∧
    (calcLoop propertyId month year totalRent os s).2.propertyUsers = s.propertyUsers ∧
    (calcLoop propertyId month year totalRent os s).2.payments = s.payments ∧
    (calcLoop propertyId month year totalRent os s).2.settlements =
      s.settlements ++ (calcLoop propertyId month year totalRent os s).1 := by
  intro os
  induction os with
  | nil => intro s; simp [calcLoop]
  | cons o os ih =>
    intro s
    obtain ⟨h1, h2, h3, h4, h5, h6⟩ := ih
      (s.createOwnerSettlement (fun newId =>
        { id := newId, propertyId := propertyId, userId := o.userId,
          month := month, year := year, totalRent := totalRent,
          ownerShare := totalRent * o.ownershipPercent.getD 0 / 100,
          amountDistributed := 0,
          balance := totalRent * o.ownershipPercent.getD 0 / 100 })).2
    refine ⟨h1, h2, h3, h4, h5, ?_⟩
    rw [calcLoop]
    simp only [Store.createOwnerSettlement] at h6 ⊢
    rw [h6]
    simp [Store.createOwnerSettlement]

theorem calcLoop_map (propertyId month year : ℤ) (totalRent : ℚ) :
    ∀ (os : List PropertyUser) (s : Store),
    (calcLoop propertyId month year totalRent os s).1.map (fun r =>
      (r.propertyId, r.userId, r.month, r.year, r.totalRent, r.ownerShare,
       r.amountDistributed, r.balance)) =
    os.map (fun o =>
      (propertyId, o.userId, month, year, totalRent,
       totalRent * o.ownershipPercent.getD 0 / 100, (0 : ℚ),
       totalRent * o.ownershipPercent.getD 0 / 100)) := by
  intro os
  induction os with
  | nil => intro s; rfl
  | cons o os ih =>
    intro s
    rw [calcLoop]
    simp only [List.map_cons, Store.createOwnerSettlement]
    rw [ih]

theorem calcLoop_length (propertyId month year : ℤ) (totalRent : ℚ)
    (os : List PropertyUser) (s : Store) :
    (calcLoop propertyId month year totalRent os s).1.length = os.length := by
  have h := calcLoop_map propertyId month year totalRent os s
  have := congrArg List.length h
  simpa using this

/-- C4: for every property, month and year, `calculateSettlements` takes
`totalRent` to be the sum of `paidAmount` (collected, not billed) over the
period's invoices whose unit belongs to the property, and inserts one
settlement row per approved `property_owner`/`co_owner` of the property with
`ownerShare = totalRent * ownershipPercent / 100`, `amountDistributed = 0`
and `balance = ownerShare`; concretely, two approved owners at 60% and 40%
of 100000 collected get rows with shares 60000 and 40000 and balances equal
to the shares. -/
theorem calculateSettlements_shares (s : Store) (propertyId month year : ℤ) :
    ((calculateSettlements s propertyId month year).1.map (fun r =>
        (r.propertyId, r.userId, r.month, r.year, r.totalRent, r.ownerShare,
         r.amountDistributed, r.balance)) =
      (filterP (fun o => o.propertyId = propertyId ∧ o.status = "approved" ∧
          (o.role = "property_owner" ∨ o.role = "co_owner")) s.propertyUsers).map
        (fun o =>
          let totalCollected : ℚ :=
            ((filterP (fun inv => (inv.month = month ∧ inv.year = year) ∧
                inv.unitId ∈ (filterP (fun u => u.propertyId = propertyId)
                  s.units).map Unit_.id) s.invoices).map
              (fun inv => inv.paidAmount.getD 0)).sum
          (propertyId, o.userId, month, year, totalCollected,
           totalCollected * o.ownershipPercent.getD 0 / 100, (0 : ℚ),
           totalCollected * o.ownershipPercent.getD 0 / 100))) ∧
    (calculateSettlements settleDemoStore 1 9 2025).1.map
        (fun r => (r.userId, r.ownerShare, r.balance)) =
      [(10, 60000, 60000), (11, 40000, 40000)] := by
  constructor
  · unfold calculateSettlements
    simp only [Store.getUnits, Store.getRentInvoicesByMonth, Store.getPropertyUsers]
    rw [calcLoop_map, filterP_filterP, filterP_filterP, ← List.sum_eq_foldl]
  · unfold calculateSettlements
    norm_num [Store.getUnits, Store.getRentInvoicesByMonth, Store.getPropertyUsers,
      filterP, calcLoop, Store.createOwnerSettlement, settleDemoStore]

/-- C8: `calculateSettlements` only appends to the settlements table and
touches nothing else in the store, so re-invoking it for the same period
inserts a fresh set of rows (one per approved owner, same count as the first
run) and leaves every previously created settlement row in place unchanged —
no update, replacement or deletion. -/
theorem calculateSettlements_insert_only (s : Store) (propertyId month year : ℤ) :
    ((calculateSettlements s propertyId month year).2.settlements =
      s.settlements ++ (calculateSettlements s propertyId month year).1) ∧
    ((calculateSettlements s propertyId month year).2.units = s.units ∧
     (calculateSettlements s propertyId month year).2.tenants = s.tenants ∧
     (calculateSettlements s propertyId month year).2.invoices = s.invoices ∧
     (calculateSettlements s propertyId month year).2.propertyUsers = s.propertyUsers ∧
     (calculateSettlements s propertyId month year).2.payments = s.payments) ∧
    ((calculateSettlements (calculateSettlements s propertyId month year).2
        propertyId month year).2.settlements =
      (calculateSettlements s propertyId month year).2.settlements ++
        (calculateSettlements (calculateSettlements s propertyId month year).2
          propertyId month year).1) ∧
    ((calculateSettlements (calculateSettlements s propertyId month year).2
        propertyId month year).1.length =
      (calculateSettlements s propertyId month year).1.length) := by
  have base : ∀ t : Store,
      (calculateSettlements t propertyId month year).2.settlements =
        t.settlements ++ (calculateSettlements t propertyId month year).1 ∧
      (calculateSettlements t propertyId month year).2.units = t.units ∧
      (calculateSettlements t propertyId month year).2.tenants = t.tenants ∧
      (calculateSettlements t propertyId month year).2.invoices = t.invoices ∧
      (calculateSettlements t propertyId month year).2.propertyUsers = t.propertyUsers ∧
      (calculateSettlements t propertyId month year).2.payments = t.payments := by
    intro t
    unfold calculateSettlements
    obtain ⟨h1, h2, h3, h4, h5, h6⟩ := calcLoop_store propertyId month year _ _ t
    exact ⟨h6, h1, h2, h3, h4, h5⟩
  obtain ⟨b1, b2, b3, b4, b5, b6⟩ := base s
  obtain ⟨c1, _, _, _, _, _⟩ := base (calculateSettlements s propertyId month year).2
  refine ⟨b1, ⟨b2, b3, b4, b5, b6⟩, c1, ?_⟩
  have hlen : ∀ t : Store,
      (calculateSettlements t propertyId month year).1.length =
        (filterP (fun o => o.status = "approved" ∧
          (o.role = "property_owner" ∨ o.role = "co_owner"))
          (t.getPropertyUsers propertyId)).length := by
    intro t
    unfold calculateSettlements
    rw [calcLoop_length]
  rw [hlen, hlen]
  unfold Store.getPropertyUsers
  rw [b5]


theorem genLoop_store (month year : ℤ) (ex : List ℤ) :
    ∀ (ts : List Tenant) (s : Store),
    (genLoop month year ex ts s).2.units = s.units ∧
    (genLoop month year ex ts s).2.tenants = s.tenants ∧
    (genLoop month year ex ts s).2.propertyUsers = s.propertyUsers ∧
    (genLoop month year ex ts s).2.settlements = s.settlements ∧
    (genLoop month year ex ts s).2.payments = s.payments ∧
    (genLoop month year ex ts s).2.invoices =
      s.invoices ++ (genLoop month year ex ts s).1 := by
  intro ts
  induction ts with
  | nil => intro s; simp [genLoop]
  | cons t ts ih =>
    intro s
    rw [genLoop]
    by_cases hex : t.id ∈ ex
    · rw [if_pos hex]; exact ih s
    · rw [if_neg hex]
      cases hu : s.getUnit t.unitId with
      | none => exact ih s
      | some u =>
        refine ⟨(ih _).1.trans rfl, (ih _).2.1.trans rfl, (ih _).2.2.1.trans rfl,
          (ih _).2.2.2.1.trans rfl, (ih _).2.2.2.2.1.trans rfl, ?_⟩
        rw [(ih _).2.2.2.2.2]
        simp [Store.createRentInvoice]

theorem genLoop_created (month year : ℤ) (ex : List ℤ) :
    ∀ (ts : List Tenant) (s : Store),
    ∀ inv ∈ (genLoop month year ex ts s).1,
      inv.month = month ∧ inv.year = year ∧ inv.status = "unpaid" ∧
      inv.paidAmount = some 0 ∧
      inv.receiptNumber = some (invReceipt year month inv.tenantId) ∧
      ∃ u, s.getUnit inv.unitId = some u ∧ inv.amount = u.monthlyRent := by
  intro ts
  induction ts with
  | nil => intro s inv h; simp [genLoop] at h
  | cons t ts ih =>
    intro s inv hmem
    rw [genLoop] at hmem
    by_cases hex : t.id ∈ ex
    · rw [if_pos hex] at hmem; exact ih s inv hmem
    · rw [if_neg hex] at hmem
      cases hu : s.getUnit t.unitId with
      | none => rw [hu] at hmem; exact ih s inv hmem
      | some u =>
        rw [hu] at hmem
        simp only [List.mem_cons] at hmem
        rcases hmem with rfl | hmem
        · exact ⟨rfl, rfl, rfl, rfl, rfl, u, hu, rfl⟩
        · have := ih _ inv hmem
          simpa [Store.getUnit, Store.createRentInvoice] using this

theorem genLoop_map_tenantId (month year : ℤ) (ex : List ℤ) :
    ∀ (ts : List Tenant) (s : Store),
    (genLoop month year ex ts s).1.map RentInvoice.tenantId =
      (filterP (fun t => t.id ∉ ex ∧ (s.getUnit t.unitId).isSome) ts).map Tenant.id := by
  intro ts
  induction ts with
  | nil => intro s; rfl
  | cons t ts ih =>
    intro s
    rw [genLoop, filterP]
    by_cases hex : t.id ∈ ex
    · rw [if_pos hex, if_neg (by simp [hex])]
      exact ih s
    · rw [if_neg hex]
      cases hu : s.getUnit t.unitId with
      | none =>
        rw [if_neg (by simp)]
        exact ih s
      | some u =>
        rw [if_pos (by simp [hex])]
        simp only [List.map_cons]
        refine congrArg₂ _ rfl ?_
        exact (ih _).trans (by simp [Store.getUnit, Store.createRentInvoice])

theorem genLoop_skip (month year : ℤ) (ex : List ℤ) :
    ∀ (ts : List Tenant) (s : Store),
    (∀ t ∈ ts, t.id ∈ ex ∨ s.getUnit t.unitId = none) →
    genLoop month year ex ts s = ([], s) := by
  intro ts
  induction ts with
  | nil => intro s _; rfl
  | cons t ts ih =>
    intro s h
    rw [genLoop]
    rcases h t (List.mem_cons_self t ts) with hex | hu
    · rw [if_pos hex]
      exact ih s (fun a ha => h a (List.mem_cons_of_mem t ha))
    · by_cases hex : t.id ∈ ex
      · rw [if_pos hex]
        exact ih s (fun a ha => h a (List.mem_cons_of_mem t ha))
      · rw [if_neg hex, hu]
        exact ih s (fun a ha => h a (List.mem_cons_of_mem t ha))

/-- C6: `generateInvoices` is idempotent for a fixed store: the first run
creates exactly one invoice per active tenant that is not already invoiced
for the period and whose unit exists (skipping already-invoiced tenants, and
silently skipping tenants with a missing unit), each created invoice carrying
`amount = unit.monthlyRent`, status `unpaid`, `paidAmount = 0` and receipt
number `INV-{year}{month:02}-{tenantId}`; running it again immediately
afterwards creates zero invoices and leaves the store exactly as the first
run left it. -/
theorem generateInvoices_idempotent (s : Store) (m y : ℤ) (hm : m ≠ 0) (hy : y ≠ 0) :
    ∃ created s',
      generateInvoices s m y = .ok (created, s') ∧
      s'.invoices = s.invoices ++ created ∧
      generateInvoices s' m y = .ok ([], s') ∧
      created.map RentInvoice.tenantId =
        (filterP (fun t => t.isActive = 1 ∧
          (t.id ∉ (s.getRentInvoicesByMonth m y).map RentInvoice.tenantId ∧
           (s.getUnit t.unitId).isSome)) s.tenants).map Tenant.id ∧
      ∀ inv ∈ (generateInvoices s m y).toOption.elim [] Prod.fst,
        inv.month = m ∧ inv.year = y ∧ inv.status = "unpaid" ∧
        inv.paidAmount = some 0 ∧
        inv.receiptNumber = some (invReceipt y m inv.tenantId) ∧
        ∃ u, s.getUnit inv.unitId = some u ∧ inv.amount = u.monthlyRent := by
  have hguard : ¬(m = 0 ∨ y = 0) := by tauto
  set acts := filterP (fun t => t.isActive = 1) s.getTenants with hacts
  set ex := (s.getRentInvoicesByMonth m y).map RentInvoice.tenantId with hexdef
  obtain ⟨g1, g2, g3, g4, g5, g6⟩ := genLoop_store m y ex acts s
  have hrun1 : generateInvoices s m y =
      .ok ((genLoop m y ex acts s).1, (genLoop m y ex acts s).2) := by
    unfold generateInvoices
    rw [if_neg hguard]
  refine ⟨(genLoop m y ex acts s).1, (genLoop m y ex acts s).2, hrun1, g6, ?_, ?_, ?_⟩
  · unfold generateInvoices
    rw [if_neg hguard]
    have hacts2 : filterP (fun t => t.isActive = 1)
        (genLoop m y ex acts s).2.getTenants = acts := by
      show filterP (fun t => t.isActive = 1) (genLoop m y ex acts s).2.tenants = acts
      rw [g2]
      exact hacts.symm
    have hskip : genLoop m y
        (((genLoop m y ex acts s).2.getRentInvoicesByMonth m y).map RentInvoice.tenantId)
        acts (genLoop m y ex acts s).2 = ([], (genLoop m y ex acts s).2) := by
      apply genLoop_skip
      intro t ht
      by_cases htex : t.id ∈ ex
      · left
        show t.id ∈ (filterP (fun i => i.month = m ∧ i.year = y)
          (genLoop m y ex acts s).2.invoices).map RentInvoice.tenantId
        rw [g6, filterP_append, List.map_append]
        exact List.mem_append_left _ htex
      · cases hgu : s.getUnit t.unitId with
        | none =>
          right
          show findFirstP (fun u => u.id = t.unitId) (genLoop m y ex acts s).2.units = none
          rw [g1]
          exact hgu
        | some u =>
          left
          have htelig : t ∈ filterP (fun t => t.id ∉ ex ∧ (s.getUnit t.unitId).isSome) acts :=
            mem_filterP.mpr ⟨ht, htex, by rw [hgu]; rfl⟩
          have : t.id ∈ (genLoop m y ex acts s).1.map RentInvoice.tenantId := by
            rw [genLoop_map_tenantId]
            exact List.mem_map_of_mem Tenant.id htelig
          obtain ⟨inv, hinvmem, hinvid⟩ := List.mem_map.mp this
          obtain ⟨him, hiy, _, _, _, _⟩ := genLoop_created m y ex acts s inv hinvmem
          show t.id ∈ (filterP (fun i => i.month = m ∧ i.year = y)
            (genLoop m y ex acts s).2.invoices).map RentInvoice.tenantId
          rw [g6, filterP_append, List.map_append]
          refine List.mem_append_right _ ?_
          refine List.mem_map.mpr ⟨inv, ?_, hinvid⟩
          exact mem_filterP.mpr ⟨hinvmem, him, hiy⟩
    simp only [hacts2]
    rw [hskip]
  · rw [genLoop_map_tenantId m y ex acts s, hacts, filterP_filterP]
    rfl
  · rw [hrun1]
    intro inv hmem
    exact genLoop_created m y ex acts s inv hmem

theorem generateInvoices_idempotent_witness :
    ∃ created s',
      generateInvoices genDemoStore 9 2025 = .ok (created, s') ∧
      s'.invoices = genDemoStore.invoices ++ created ∧
      generateInvoices s' 9 2025 = .ok ([], s') ∧
      created.map RentInvoice.tenantId =
        (filterP (fun t => t.isActive = 1 ∧
          (t.id ∉ (genDemoStore.getRentInvoicesByMonth 9 2025).map RentInvoice.tenantId ∧
           (genDemoStore.getUnit t.unitId).isSome)) genDemoStore.tenants).map Tenant.id ∧
      ∀ inv ∈ (generateInvoices genDemoStore 9 2025).toOption.elim [] Prod.fst,
        inv.month = 9 ∧ inv.year = 2025 ∧ inv.status = "unpaid" ∧
        inv.paidAmount = some 0 ∧
        inv.receiptNumber = some (invReceipt 2025 9 inv.tenantId) ∧
        ∃ u, genDemoStore.getUnit inv.unitId = some u ∧ inv.amount = u.monthlyRent :=
  generateInvoices_idempotent genDemoStore 9 2025 (by decide) (by decide)


theorem pickTenant_eq_none {ts : List Tenant} (h : pickTenant ts = none) : ts = [] := by
  unfold pickTenant at h
  cases hf : findFirstP (fun t => t.isActive = 1) ts with
  | some t => rw [hf] at h; exact absurd h (Option.some_ne_none t)
  | none =>
    rw [hf] at h
    exact List.head?_eq_none_iff.mp h

theorem reconLoop_store (u : ℤ) (pct cr : ℚ) :
    ∀ (L : List (ℤ × ℤ × ℤ)) (s : Store),
    (reconLoop u pct cr L s).2.units = s.units ∧
    (reconLoop u pct cr L s).2.tenants = s.tenants ∧
    (reconLoop u pct cr L s).2.invoices = s.invoices ++ (reconLoop u pct cr L s).1 := by
  intro L
  induction L with
  | nil => intro s; simp [reconLoop]
  | cons e rest ih =>
    obtain ⟨y, m, rent⟩ := e
    intro s
    rw [reconLoop]
    cases hf : findFirstP (fun inv => inv.unitId = u) (s.getRentInvoicesByMonth m y) with
    | some i => exact ih s
    | none =>
      dsimp only
      cases ha : pickTenant (s.getTenantsByUnit u) with
      | none => exact ih s
      | some t =>
        refine ⟨(ih _).1.trans rfl, (ih _).2.1.trans rfl, ?_⟩
        rw [(ih _).2.2]
        simp [Store.createRentInvoice]

theorem reconLoop_skip (u : ℤ) (pct cr : ℚ) :
    ∀ (L : List (ℤ × ℤ × ℤ)) (s : Store),
    (∀ e ∈ L, (∃ inv ∈ s.invoices, inv.unitId = u ∧ inv.month = e.2.1 ∧ inv.year = e.1) ∨
      s.getTenantsByUnit u = []) →
    reconLoop u pct cr L s = ([], s) := by
  intro L
  induction L with
  | nil => intro s _; rfl
  | cons e rest ih =>
    obtain ⟨y, m, rent⟩ := e
    intro s h
    rw [reconLoop]
    cases hf : findFirstP (fun inv => inv.unitId = u) (s.getRentInvoicesByMonth m y) with
    | some i => exact ih s (fun a ha => h a (List.mem_cons_of_mem _ ha))
    | none =>
      rcases h (y, m, rent) (List.mem_cons_self _ rest) with ⟨inv, hmem, hiu, him, hiy⟩ | hts
      · exact absurd hf (findFirstP_ne_none
          (mem_filterP.mpr ⟨hmem, him, hiy⟩) hiu)
      · dsimp only
        rw [hts]
        exact ih s (fun a ha' => h a (List.mem_cons_of_mem _ ha'))

theorem reconLoop_post (u : ℤ) (pct cr : ℚ) :
    ∀ (L : List (ℤ × ℤ × ℤ)) (s : Store), ∀ e ∈ L,
    (∃ inv ∈ (reconLoop u pct cr L s).2.invoices,
      inv.unitId = u ∧ inv.month = e.2.1 ∧ inv.year = e.1) ∨
    (reconLoop u pct cr L s).2.getTenantsByUnit u = [] := by
  intro L
  induction L with
  | nil => intro s e he; simp at he
  | cons e0 rest ih =>
    obtain ⟨y, m, rent⟩ := e0
    intro s e he
    rw [reconLoop]
    cases hf : findFirstP (fun inv => inv.unitId = u) (s.getRentInvoicesByMonth m y) with
    | some i =>
      rcases List.mem_cons.mp he with rfl | he'
      · obtain ⟨hmem, hiu⟩ := findFirstP_some hf
        obtain ⟨hmem', hmy⟩ := mem_filterP.mp hmem
        left
        refine ⟨i, ?_, hiu, hmy.1, hmy.2⟩
        rw [(reconLoop_store u pct cr rest s).2.2]
        exact List.mem_append_left _ hmem'
      · exact ih s e he'
    | none =>
      dsimp only
      cases ha : pickTenant (s.getTenantsByUnit u) with
      | none =>
        rcases List.mem_cons.mp he with rfl | he'
        · right
          have hts : s.getTenantsByUnit u = [] := pickTenant_eq_none ha
          show filterP (fun t => t.unitId = u) (reconLoop u pct cr rest s).2.tenants = []
          rw [(reconLoop_store u pct cr rest s).2.1]
          exact hts
        · exact ih s e he'
      | some t =>
        dsimp only
        rcases List.mem_cons.mp he with rfl | he'
        · left
          refine ⟨(⟨s.nextId, t.id, u, m, y, (rent : ℚ), "unpaid", some 0, none,
            none, some (histReceipt y m u), 1,
            some (reconNotes pct cr)⟩ : RentInvoice), ?_, rfl, rfl, rfl⟩
          rw [(reconLoop_store u pct cr rest _).2.2]
          exact List.mem_append_left _
            (List.mem_append_right _ (List.mem_singleton.mpr rfl))
        · exact ih _ e he'

/-- C7: running `reconstructHistory` twice with identical parameters under a
fixed current date generates zero invoices on the second run: every
`(month, year)` in the range is skipped as soon as any invoice for the unit
exists there (the dedup key is the unit, not the tenant), and months whose
unit has no tenant record are silently skipped without creating an invoice
or raising an error, on the second run exactly as on the first. -/
theorem reconstructHistory_idempotent (nowYear nowMonth : ℤ) (s : Store) (unitId : ℤ)
    (currentRent yearlyIncreasePercent : ℚ) (startYear startMonth : Option ℤ)
    (yrs : List (ℤ × ℤ)) (created : List RentInvoice) (s' : Store)
    (h : reconstructHistory nowYear nowMonth s unitId currentRent yearlyIncreasePercent
      startYear startMonth = .ok (yrs, created, s')) :
    reconstructHistory nowYear nowMonth s' unitId currentRent yearlyIncreasePercent
      startYear startMonth = .ok (yrs, [], s') ∧
    s'.invoices = s.invoices ++ created ∧
    (s.getTenantsByUnit unitId = [] → created = []) := by
  unfold reconstructHistory at h ⊢
  by_cases hg : currentRent = 0 ∨ yearlyIncreasePercent = 0
  · rw [if_pos hg] at h
    exact absurd h (by simp)
  rw [if_neg hg] at h ⊢
  cases hu : s.getUnit unitId with
  | none =>
    rw [hu] at h
    exact absurd h (by simp)
  | some u0 =>
    rw [hu] at h
    dsimp only at h ⊢
    set sY := jsOrZ startYear 2015 with hsY
    set sM := jsOrZ startMonth 1 with hsM
    set yrs0 := yearlyRents (yearlyIncreasePercent / 100) sY nowYear currentRent with hyrs0
    set months := reconMonths sY sM nowYear nowMonth yrs0 with hmonths
    simp only [Except.ok.injEq, Prod.mk.injEq] at h
    obtain ⟨hy, hc, hs⟩ := h
    obtain ⟨r1, r2, r3⟩ :=
      reconLoop_store unitId yearlyIncreasePercent currentRent months s
    have hinv : s'.invoices = s.invoices ++ created := by
      rw [← hs, ← hc]
      exact r3
    have hu' : s'.getUnit unitId = some u0 := by
      show findFirstP (fun v => v.id = unitId) s'.units = some u0
      rw [← hs, r1]
      exact hu
    refine ⟨?_, hinv, ?_⟩
    · rw [hu']
      dsimp only
      have hskip : reconLoop unitId yearlyIncreasePercent currentRent months s' =
          ([], s') := by
        apply reconLoop_skip
        intro e he
        have hpost :=
          reconLoop_post unitId yearlyIncreasePercent currentRent months s e he
        rw [hs] at hpost
        exact hpost
      rw [hskip, hy]
    · intro hts
      have hskip1 : reconLoop unitId yearlyIncreasePercent currentRent months s =
          ([], s) :=
        reconLoop_skip unitId yearlyIncreasePercent currentRent months s
          (fun e _ => Or.inr hts)
      rw [← hc, hskip1]

theorem reconstructHistory_idempotent_witness :
    reconstructHistory 2025 1 reconDemoAfter 1 1000 100 (some 2025) (some 1) =
      .ok ([(2025, 1000)], [], reconDemoAfter) ∧
    reconDemoAfter.invoices = reconDemoStore.invoices ++ [reconDemoInvoice] ∧
    (reconDemoStore.getTenantsByUnit 1 = [] → [reconDemoInvoice] = []) := by
  have h : reconstructHistory 2025 1 reconDemoStore 1 1000 100 (some 2025) (some 1) =
      .ok ([(2025, 1000)], [reconDemoInvoice], reconDemoAfter) := by
    norm_num [reconstructHistory, yearlyRents, reconAux, reconMonths, monthRange,
      reconLoop, pickTenant, findFirstP, filterP, Store.getUnit,
      Store.getRentInvoicesByMonth, Store.getTenantsByUnit, Store.createRentInvoice,
      jsOrZ, jsRound, Int.floor_eq_iff, reconDemoStore, reconDemoInvoice,
      reconDemoAfter, List.range]
  exact reconstructHistory_idempotent 2025 1 reconDemoStore 1 1000 100
    (some 2025) (some 1) _ _ _ h


theorem reconAux_getLast (rate : ℚ) :
    ∀ (n : ℕ) (y : ℤ) (r : ℚ),
    ((reconAux rate n y r).map Prod.snd).getLast? = some (jsRound r) := by
  intro n
  induction n with
  | zero => intro y r; rfl
  | succ n ih =>
    intro y r
    rw [reconAux, List.map_append]
    simp

theorem jsRound_mono {a b : ℚ} (h : a ≤ b) : jsRound a ≤ jsRound b :=
  Int.floor_le_floor (add_le_add_right h _)

theorem reconAux_chain (rate : ℚ) (hrate : 0 ≤ rate) :
    ∀ (n : ℕ) (y : ℤ) (r : ℚ), 0 ≤ r →
    List.Chain' (· ≤ ·) ((reconAux rate n y r).map Prod.snd) := by
  intro n
  induction n with
  | zero => intro y r _; simp [reconAux]
  | succ n ih =>
    intro y r hr
    rw [reconAux, List.map_append]
    rw [List.chain'_append]
    have hr' : (0 : ℚ) ≤ r / (1 + rate) :=
      div_nonneg hr (by linarith)
    refine ⟨ih (y - 1) (r / (1 + rate)) hr', List.chain'_singleton _, ?_⟩
    intro a ha b hb
    rw [reconAux_getLast] at ha
    simp only [List.map_cons, List.map_nil, List.head?_cons, Option.mem_def,
      Option.some.injEq] at ha hb
    subst ha
    subst hb
    exact jsRound_mono (div_le_self hr (by linarith))

/-- Counterexample to C3 as stated: the claim quantifies over every numeric
`currentRent`, but at `currentRent = -1000` (truthy, so accepted by the
endpoint) with a 10% yearly increase the computed yearly rent sequence is
`[-909, -1000]` from 2024 to 2025, which is not monotonically non-decreasing. -/
theorem reconstruct_monotonicity_counterexample :
    reconstructHistory 2025 1 reconNegStore 1 (-1000) 10 (some 2024) (some 1) =
      .ok ([(2024, -909), (2025, -1000)], [], reconNegStore) ∧
    ¬ List.Chain' (· ≤ ·) [(-909 : ℤ), -1000] := by
  constructor
  · norm_num [reconstructHistory, yearlyRents, reconAux, reconMonths, monthRange,
      reconLoop, pickTenant, findFirstP, filterP, Store.getUnit,
      Store.getRentInvoicesByMonth, Store.getTenantsByUnit, jsOrZ, jsRound,
      Int.floor_eq_iff, reconNegStore, List.range]
  · simp only [List.chain'_cons, List.chain'_singleton, and_true]
    decide

/-- C3 (amended): restricted to `currentRent > 0` and
`yearlyIncreasePercent > 0` — the endpoint's required-field truthiness check
already rejects a 0 in either — the yearly rent sequence computed by reverse
compounding with `Math.round` (the sequence `reconstructHistory` returns,
indexed `startYear..currentYear`) is monotonically non-decreasing, and for
`currentRent = 45000`, 10% increase, `startYear = 2015`, current year 2025 it
is strictly increasing with the 2025 entry equal to 45000. -/
theorem reconstruct_monotone_amended (nowYear nowMonth sYear : ℤ)
    (currentRent pct : ℚ) (hcr : 0 < currentRent) (hpct : 0 < pct) :
    List.Chain' (· ≤ ·)
      ((yearlyRents (pct / 100) sYear nowYear currentRent).map Prod.snd) ∧
    (∀ (s : Store) (unitId : ℤ) (startYear startMonth : Option ℤ) yrs created s',
      reconstructHistory nowYear nowMonth s unitId currentRent pct startYear startMonth =
        .ok (yrs, created, s') →
      yrs = yearlyRents (pct / 100) (jsOrZ startYear 2015) nowYear currentRent) ∧
    List.Chain' (· < ·) ((yearlyRents (10 / 100) 2015 2025 45000).map Prod.snd) ∧
    (yearlyRents (10 / 100) 2015 2025 45000).getLast? = some (2025, 45000) := by
  have hconc : yearlyRents (10 / 100) 2015 2025 45000 =
      [(2015, 17349), (2016, 19084), (2017, 20993), (2018, 23092), (2019, 25401),
       (2020, 27941), (2021, 30736), (2022, 33809), (2023, 37190), (2024, 40909),
       (2025, 45000)] := by
    norm_num [yearlyRents, reconAux, jsRound, Int.floor_eq_iff]
  refine ⟨?_, ?_, ?_, ?_⟩
  · unfold yearlyRents
    by_cases hlt : nowYear < sYear
    · rw [if_pos hlt]; simp
    · rw [if_neg hlt]
      exact reconAux_chain (pct / 100) (by positivity) _ _ _ (le_of_lt hcr)
  · intro s unitId startYear startMonth yrs created s' h
    unfold reconstructHistory at h
    rw [if_neg (by rintro (h0 | h0) <;> simp [h0] at hcr hpct)] at h
    cases hu : s.getUnit unitId with
    | none => rw [hu] at h; exact absurd h (by simp)
    | some u0 =>
      rw [hu] at h
      dsimp only at h
      simp only [Except.ok.injEq, Prod.mk.injEq] at h
      exact h.1.symm
  · rw [hconc]
    simp only [List.map_cons, List.map_nil, List.chain'_cons, List.chain'_singleton,
      and_true]
    decide
  · rw [hconc]
    rfl

theorem reconstruct_monotone_amended_witness :
    List.Chain' (· ≤ ·)
      ((yearlyRents ((10 : ℚ) / 100) 2015 2025 45000).map Prod.snd) ∧
    (∀ (s : Store) (unitId : ℤ) (startYear startMonth : Option ℤ) yrs created s',
      reconstructHistory 2025 10 s unitId 45000 10 startYear startMonth =
        .ok (yrs, created, s') →
      yrs = yearlyRents ((10 : ℚ) / 100) (jsOrZ startYear 2015) 2025 45000) ∧
    List.Chain' (· < ·) ((yearlyRents ((10 : ℚ) / 100) 2015 2025 45000).map Prod.snd) ∧
    (yearlyRents ((10 : ℚ) / 100) 2015 2025 45000).getLast? = some (2025, 45000) :=
  reconstruct_monotone_amended 2025 10 2015 45000 10 (by decide) (by decide)
